import Mathlib

/-
Verification development for the HikStatus background monitor
(`background_monitor.py`).  The polling / reconciliation / alerting state
machine is embedded shallowly:

* timestamps (`datetime` values) are modelled as `Int` seconds; `timedelta`
  comparisons become `Int` comparisons;
* Python strings that are only compared for equality (statuses, names, ips)
  are Lean `String`s; composite keys `f"{nvr_ip}-{channel_id}"`, which the
  code builds, splits and uses as dictionary keys, are modelled as
  `List Char` so that concatenation and split-at-first-dash are transparent;
* the database is a list of `Cam` rows (table `camera_states` has a unique
  constraint on `(nvr_ip, channel_id)`); dictionaries keyed by the composite
  key are association lists;
* `db.session.commit` / `db.session.rollback` follow the spec's store
  contract (atomic commit/rollback of a cycle's batch): a function either
  returns the fully updated state or the untouched input state.
-/

/-- Transient per-channel poll entry: the dict value stored in
`poll_results` / `current_db_state` (keys `status`, `last_online`,
`down_check_count`, `ip`, `name`). -/
structure PollEntry where
  status : String
  last_online : Int
  down_check_count : Nat
  ip : String
  name : String
deriving DecidableEq, Repr

/-- A `CameraState` row (`models.py`).  `status` is `Option String` because a
freshly constructed ORM object has `status = None` until the reconciler
assigns it. -/
structure Cam where
  nvr_ip : List Char
  channel_id : List Char
  camera_ip : String
  camera_name : String
  status : Option String
  last_online : Int
  last_check : Int
  down_check_count : Nat
  down_alert_sent : Bool
  alert_email_count : Nat
  is_muted : Bool
  last_alert_time : Option Int
deriving DecidableEq, Repr

/-- A `CheckRecord` row (`models.py`): one per completed cycle. -/
structure CheckRec where
  timestamp : Int
  total_cameras : Nat
  online_cameras : Nat
  allOk : Bool
  check_number : Nat
deriving DecidableEq, Repr

/-- Events appended to the `alert_logs` table (`log_event` calls), carrying
the fields the claims are about. -/
inductive Event where
  | camera_down (nvr_ip : List Char) (ip name : String) (count : Nat)
  | nvr_error (nvr_ip : List Char) (detail : String)
  | camera_muted (key : List Char)
  | mail_alert_triggered (key : List Char) (count : Nat)
  | mail_sent (alerts : Nat)
  | mail_failed
deriving DecidableEq, Repr

/-- Recognizer for `camera_down` events. -/
def isCameraDown : Event → Bool
  | Event.camera_down _ _ _ _ => true
  | _ => false

/-- Composite key `f"{nvr_ip}-{channel_id}"`. -/
def mkKey (ip ch : List Char) : List Char := ip ++ '-' :: ch

/-- `key.split('-', 1)`: the part before the first dash and the part after
it.  (The code always applies it to keys that contain a dash; on a dash-free
list this returns the whole list and `[]`.) -/
def splitFirst (k : List Char) : List Char × List Char :=
  (k.takeWhile (fun ch => ch ≠ '-'), (k.dropWhile (fun ch => ch ≠ '-')).drop 1)

/-- The composite key of a stored row, `f"{cam.nvr_ip}-{cam.channel_id}"`. -/
def camKey (c : Cam) : List Char := mkKey c.nvr_ip c.channel_id

/-- Association-list lookup, modelling `dict.get(key)` (dictionary keys are
unique, so first match is the match). -/
def lookupKey (m : List (List Char × PollEntry)) (k : List Char) : Option PollEntry :=
  (m.find? (fun kv => kv.1 == k)).map (fun kv => kv.2)

/-- Python truthiness test `cam_state.status and cam_state.status != 'Online'`
(line 180): `None` and the empty string are falsy. -/
def wasOffline : Option String → Bool
  | none => false
  | some s => s != "" && s != "Online"

/-- A fresh `CameraState(nvr_ip=…, channel_id=…, last_online=now)` ORM object
(line 171): unassigned attributes are `None`/default. -/
def newCam (ip ch : List Char) (now : Int) : Cam :=
  { nvr_ip := ip, channel_id := ch, camera_ip := "", camera_name := "",
    status := none, last_online := now, last_check := 0, down_check_count := 0,
    down_alert_sent := false, alert_email_count := 0, is_muted := false,
    last_alert_time := none }

/-- One iteration of the per-camera loop body of `save_state_to_db`
(lines 158–231): load-or-create the row, recovery check (resetting the alert
fields), first-offline check (overriding `last_online` with `now`), then
apply the poll entry's fields verbatim. -/
def reconcileCam (now : Int) (stored : Option Cam) (ip ch : List Char)
    (e : PollEntry) : Cam :=
  let c0 := match stored with
    | some c => c
    | none => newCam ip ch now
  let recovery := wasOffline c0.status && (e.status == "Online")
  let c1 := if recovery then
      { c0 with alert_email_count := 0, is_muted := false, last_alert_time := none }
    else c0
  let firstOffline := (c1.status == some "Online") && (e.status != "Online")
  let lo := if firstOffline then now else e.last_online
  { c1 with
    camera_ip := e.ip, camera_name := e.name, status := some e.status,
    last_online := lo, last_check := now, down_check_count := e.down_check_count,
    down_alert_sent := false }

/-- Per-channel body of the success path of `poll_nvr_status`
(lines 340–392): an `online == 'true'` channel gets counter 0 and
`last_online = now`; any other text means `Offline`, the counter is the
snapshot's counter plus one and `last_online` is preserved from the snapshot
(default `now` when the channel is unknown).  Returns the poll entry plus
the events logged for this channel (`camera_down` exactly when the new
counter equals 1). -/
def pollChannel (now : Int) (prev : Option PollEntry) (onlineText : String)
    (nvr_ip : List Char) (ip name : String) : PollEntry × List Event :=
  if onlineText == "true" then
    ({ status := "Online", last_online := now, down_check_count := 0,
       ip := ip, name := name }, [])
  else
    let prevDown := match prev with
      | some p => p.down_check_count
      | none => 0
    let origLast := match prev with
      | some p => p.last_online
      | none => now
    let entry : PollEntry :=
      { status := "Offline", last_online := origLast,
        down_check_count := prevDown + 1, ip := ip, name := name }
    let evs := if prevDown + 1 == 1 then
        [Event.camera_down nvr_ip ip name (prevDown + 1)]
      else []
    (entry, evs)

/-- Body of the known-camera branch of `update_nvr_state_on_error`
(lines 449–464): status becomes `new_status`, the counter is incremented,
and `last_online` is preserved unless the camera was previously `Online`
(in which case the downtime clock starts at the failure time). -/
def errorEntryFromPrev (ts : Int) (newStatus : String) (p : PollEntry) : PollEntry :=
  { status := newStatus,
    last_online := if p.status == "Online" then ts else p.last_online,
    down_check_count := p.down_check_count + 1,
    ip := p.ip, name := p.name }

/-- `update_nvr_state_on_error` (lines 416–464): for an NVR in the
configured list, produce error entries for every snapshot key of that NVR,
or a single placeholder entry under key `f"{nvr_ip}-0"` when none are known.
Returns the entries added to `poll_results`.  No `camera_down` event is
logged on this path. -/
def update_nvr_state_on_error (cfgIps : List (List Char)) (nvr_ip : List Char)
    (newStatus : String) (ts : Int) (detail : String)
    (snapshot : List (List Char × PollEntry)) : List (List Char × PollEntry) :=
  if !(cfgIps.contains nvr_ip) then []
  else
    let keysToUpdate := snapshot.filter (fun kv => (nvr_ip ++ ['-']).isPrefixOf kv.1)
    if keysToUpdate.isEmpty then
      let key := nvr_ip ++ ['-', '0']
      let prev := lookupKey snapshot key
      let prevDown := match prev with
        | some p => p.down_check_count
        | none => 0
      let orig := match prev with
        | some p => if p.status == "Online" then ts else p.last_online
        | none => ts
      [(key, { status := newStatus, last_online := orig,
               down_check_count := prevDown + 1, ip := "N/A",
               name := "NVR Error (" ++ detail ++ ")" })]
    else
      keysToUpdate.map (fun kv => (kv.1, errorEntryFromPrev ts newStatus kv.2))

/-- The error paths of `poll_nvr_status` (non-200 status, connection
failure, timeout, parse error, zero channels — lines 325–334, 396–412):
log one `nvr_error` event and route through `update_nvr_state_on_error`
with status `"System Error"`. -/
def poll_nvr_error_path (cfgIps : List (List Char)) (nvr_ip : List Char)
    (ts : Int) (detail : String) (snapshot : List (List Char × PollEntry)) :
    List (List Char × PollEntry) × List Event :=
  (update_nvr_state_on_error cfgIps nvr_ip "System Error" ts detail snapshot,
   [Event.nvr_error nvr_ip detail])

example :
    (pollChannel 5 (some {
        status := "Online", last_online := 2,
        down_check_count := 0, ip := "a", name := "n" }) "false"
        ['9'] "a" "n").1.down_check_count = 1 := by decide

example :
    (reconcileCam 7 (some {
        nvr_ip := ['9'], channel_id := ['1'],
        camera_ip := "a", camera_name := "n", status := some "Offline",
        last_online := 2, last_check := 6, down_check_count := 3,
        down_alert_sent := false, alert_email_count := 2, is_muted := false,
        last_alert_time := some 4 })
      ['9'] ['1']
      {
        status := "Online", last_online := 7, down_check_count := 0,
        ip := "a", name := "n" }).alert_email_count = 0 := by decide

/-- A key is processed by `save_state_to_db`'s per-NVR loop when it starts
with `f"{nvr_ip}-"` for some configured NVR (line 155). -/
def isActiveKey (cfgIps : List (List Char)) (k : List Char) : Bool :=
  cfgIps.any (fun ip => (ip ++ ['-']).isPrefixOf k)

/-- The stored rows scoped to configured NVRs
(`db.session.query(CameraState).filter(CameraState.nvr_ip.in_(nvr_set))`,
line 148). -/
def inScopeRows (cfgIps : List (List Char)) (dbCams : List Cam) : List Cam :=
  dbCams.filter (fun c => cfgIps.contains c.nvr_ip)

/-- The poll entries whose key matches some configured NVR's dash filter
(union over the per-NVR `nvr_cam_keys` dicts, lines 153–156). -/
def activeEntries (cfgIps : List (List Char))
    (poll : List (List Char × PollEntry)) : List (List Char × PollEntry) :=
  poll.filter (fun kv => isActiveKey cfgIps kv.1)

/-- The `(nvr_ip, channel_id)` pairs targeted by the pruning deletions:
scoped stored keys absent from the active poll keys, split at the first
dash (lines 238–250). -/
def stalePairs (cfgIps : List (List Char)) (dbCams : List Cam)
    (poll : List (List Char × PollEntry)) : List (List Char × List Char) :=
  (((inScopeRows cfgIps dbCams).map camKey).filter
    (fun k => !(((activeEntries cfgIps poll).map Prod.fst).contains k))).map
    splitFirst

/-- The pure reconciliation of one cycle, i.e. the body of
`save_state_to_db` (lines 140–262) before the commit: every poll entry whose
key belongs to a configured NVR is reconciled against the stored row of the
same composite key (rows are scoped to configured NVRs, line 148); stored
rows of configured NVRs whose key is absent from the active poll keys are
stale and deleted by their `(nvr_ip, channel_id)` pair obtained from
`key.split('-', 1)` (lines 238–250); rows of unconfigured NVRs are left
untouched.  The source iterates `for nvr_ip in nvr_set` over an unordered
set; here each active poll entry is processed once, in poll order, which
agrees with the source whenever a key matches at most one configured NVR
(always the case for dash-free NVR IPs). -/
def save_state_core (cfgIps : List (List Char)) (dbCams : List Cam)
    (poll : List (List Char × PollEntry)) (now : Int) : List Cam :=
  let old := dbCams.filterMap (fun c =>
    if (stalePairs cfgIps dbCams poll).contains (c.nvr_ip, c.channel_id) then
      none
    else if cfgIps.contains c.nvr_ip then
      match (activeEntries cfgIps poll).find? (fun kv => camKey c == kv.1) with
      | some kv => some (reconcileCam now (some c) c.nvr_ip c.channel_id kv.2)
      | none => some c
    else some c)
  let fresh := (activeEntries cfgIps poll).filterMap (fun kv =>
    if (inScopeRows cfgIps dbCams).any (fun c => camKey c == kv.1) then none
    else
      some (reconcileCam now none (splitFirst kv.1).1 (splitFirst kv.1).2 kv.2))
  old ++ fresh

/-- The `CheckRecord` written at the end of a cycle (lines 252–262): counts
are taken over the processed poll entries. -/
def mkCheckRec (cfgIps : List (List Char))
    (poll : List (List Char × PollEntry)) (now : Int) (checkNumber : Nat) :
    CheckRec :=
  let activePoll := poll.filter (fun kv => isActiveKey cfgIps kv.1)
  let onlineCount := (activePoll.filter (fun kv => kv.2.status == "Online")).length
  let offlineCount := (activePoll.filter (fun kv => !(kv.2.status == "Online"))).length
  { timestamp := now, total_cameras := onlineCount + offlineCount,
    online_cameras := onlineCount, allOk := offlineCount == 0,
    check_number := checkNumber }

/-- The persistent state a cycle commits: the camera rows and the check
history.  (`alert_logs` entries are committed separately by `log_event`.) -/
structure DbState where
  cams : List Cam
  checks : List CheckRec
deriving DecidableEq, Repr

/-- `save_state_to_db` (lines 136–267): all row updates, pruning deletions
and the cycle's `CheckRecord` are staged and then committed by the single
`db.session.commit()` at line 264; any exception triggers the
`db.session.rollback()` at line 267, discarding the whole batch.  `commitOk`
stands for the absence of a persistence failure. -/
def save_state_to_db (cfgIps : List (List Char)) (st : DbState)
    (poll : List (List Char × PollEntry)) (now : Int) (checkNumber : Nat)
    (commitOk : Bool) : DbState :=
  if commitOk then
    { cams := save_state_core cfgIps st.cams poll now,
      checks := st.checks ++ [mkCheckRec cfgIps poll now checkNumber] }
  else st

/-- Alert-policy configuration (`first_alert_delay`, `alert_frequency` as
seconds, `mute_after_n_alerts`). -/
structure AlertConfig where
  firstAlertDelay : Int
  alertFrequency : Int
  muteAfterNAlerts : Nat
deriving DecidableEq, Repr

/-- Per-camera body of `check_and_send_alerts` (lines 622–683): muted
cameras are skipped; otherwise the initial-alert and recurring-alert
conditions are evaluated and an eligible camera is either muted (when
`alert_email_count >= mute_after_n_alerts`) or gets its counter incremented
and `last_alert_time` set.  Returns the staged row, the eligibility flag
(`send_email_now` contribution) and the events logged. -/
def alertDecision (cfg : AlertConfig) (now : Int) (c : Cam) :
    Cam × Bool × List Event :=
  if c.is_muted then (c, false, [])
  else
    let downtime := now - c.last_online
    let isInitial : Bool :=
      (c.alert_email_count == 0) && decide (cfg.firstAlertDelay ≤ downtime)
    let isRecurring : Bool :=
      decide (0 < c.alert_email_count) &&
        (match c.last_alert_time with
         | some t => decide (cfg.alertFrequency ≤ now - t)
         | none => false)
    if !isInitial && !isRecurring then (c, false, [])
    else if cfg.muteAfterNAlerts ≤ c.alert_email_count then
      ({ c with is_muted := true }, true, [Event.camera_muted (camKey c)])
    else
      ({ c with
          last_alert_time := some now,
          alert_email_count := c.alert_email_count + 1 },
        true,
        [Event.mail_alert_triggered (camKey c) (c.alert_email_count + 1)])

/-- `check_and_send_alerts` (lines 603–723): query all rows with
`status != 'Online'`; stage the per-camera alert/mute decisions; if any
camera was eligible, attempt the digest email.  On success the staged
mutations are committed (line 698); on failure they are discarded by the
rollback at line 712 and only the `mail_failed` event remains; per-camera
events were already logged during staging.  `mailOk` is the value returned
by `send_email`. -/
def check_and_send_alerts (cfg : AlertConfig) (now : Int) (cams : List Cam)
    (mailOk : Bool) : List Cam × List Event :=
  let allDown := cams.filter (fun c => c.status ≠ some "Online")
  if allDown.isEmpty then (cams, [])
  else
    let sendNow := allDown.any (fun c => (alertDecision cfg now c).2.1)
    let perCamEvents := allDown.flatMap (fun c => (alertDecision cfg now c).2.2)
    let staged := cams.map (fun c =>
      if c.status ≠ some "Online" then (alertDecision cfg now c).1 else c)
    if sendNow then
      if mailOk then (staged, perCamEvents ++ [Event.mail_sent allDown.length])
      else (cams, perCamEvents ++ [Event.mail_failed])
    else (cams, perCamEvents)

/-- C1: If mail delivery fails (`send_email` returns false),
`check_and_send_alerts` leaves every camera row exactly as it was before
the cycle's alert staging (the rollback discards all staged
`alert_email_count` / `is_muted` / `last_alert_time` mutations), so the next
cycle re-evaluates the same set of non-Online cameras from this unchanged
state. -/
theorem mail_failed_rolls_back_cycle (cfg : AlertConfig) (now : Int)
    (cams : List Cam) :
    (check_and_send_alerts cfg now cams false).1 = cams ∧
    (check_and_send_alerts cfg now cams false).1.filter
        (fun c => c.status ≠ some "Online")
      = cams.filter (fun c => c.status ≠ some "Online") := by
  have h : (check_and_send_alerts cfg now cams false).1 = cams := by
    simp only [check_and_send_alerts]
    split
    · rfl
    · simp only [Bool.false_eq_true, if_false]
      split <;> rfl
  exact ⟨h, by rw [h]⟩

/-- C5: All writes of one cycle's reconciliation (camera-row updates,
pruning deletions, the cycle's `CheckRecord`) are committed atomically:
`save_state_to_db` either produces exactly the fully reconciled state with
the new check record appended, or — on a persistence failure — the
completely unchanged input state; no third, partial outcome exists. -/
theorem cycle_reconciliation_is_atomic (cfgIps : List (List Char))
    (st : DbState) (poll : List (List Char × PollEntry)) (now : Int)
    (checkNumber : Nat) (commitOk : Bool) :
    save_state_to_db cfgIps st poll now checkNumber commitOk = st ∨
    save_state_to_db cfgIps st poll now checkNumber commitOk =
      { cams := save_state_core cfgIps st.cams poll now,
        checks := st.checks ++ [mkCheckRec cfgIps poll now checkNumber] } := by
  cases commitOk
  · exact Or.inl rfl
  · exact Or.inr rfl

/-- C3: When a stored camera whose status is non-Online is reconciled
against an Online poll result (recovery), the single resulting committed row
has `alert_email_count = 0`, `is_muted = false` and `last_alert_time = none`
all together: the three resets are part of one row update, with no
intermediate committed state. -/
theorem recovery_resets_alert_state_atomically (now : Int) (c : Cam)
    (ip ch : List Char) (e : PollEntry) (s : String)
    (h1 : c.status = some s) (h2 : s ≠ "Online") (h3 : s ≠ "")
    (h4 : e.status = "Online") :
    (reconcileCam now (some c) ip ch e).alert_email_count = 0 ∧
    (reconcileCam now (some c) ip ch e).is_muted = false ∧
    (reconcileCam now (some c) ip ch e).last_alert_time = none := by
  simp only [reconcileCam, wasOffline, h1, h4]
  have hb1 : (s != "") = true := by simp [bne_iff_ne, h3]
  have hb2 : (s != "Online") = true := by simp [bne_iff_ne, h2]
  simp [hb1, hb2]

/-- Witness for C3 at a concrete recovery. -/
theorem recovery_resets_alert_state_atomically_witness :
    (reconcileCam 7 (some {
        nvr_ip := ['9'], channel_id := ['1'],
        camera_ip := "a", camera_name := "n", status := some "Offline",
        last_online := 2, last_check := 6, down_check_count := 3,
        down_alert_sent := false, alert_email_count := 2, is_muted := true,
        last_alert_time := some 4 })
      ['9'] ['1']
      {
        status := "Online", last_online := 7, down_check_count := 0,
        ip := "a", name := "n" }).alert_email_count = 0 ∧
    (reconcileCam 7 (some {
        nvr_ip := ['9'], channel_id := ['1'],
        camera_ip := "a", camera_name := "n", status := some "Offline",
        last_online := 2, last_check := 6, down_check_count := 3,
        down_alert_sent := false, alert_email_count := 2, is_muted := true,
        last_alert_time := some 4 })
      ['9'] ['1']
      {
        status := "Online", last_online := 7, down_check_count := 0,
        ip := "a", name := "n" }).is_muted = false ∧
    (reconcileCam 7 (some {
        nvr_ip := ['9'], channel_id := ['1'],
        camera_ip := "a", camera_name := "n", status := some "Offline",
        last_online := 2, last_check := 6, down_check_count := 3,
        down_alert_sent := false, alert_email_count := 2, is_muted := true,
        last_alert_time := some 4 })
      ['9'] ['1']
      {
        status := "Online", last_online := 7, down_check_count := 0,
        ip := "a", name := "n" }).last_alert_time = none :=
  recovery_resets_alert_state_atomically 7 _ ['9'] ['1'] _ "Offline" rfl
    (by decide) (by decide) rfl

/-- C6: `last_online` equals the start of the current downtime episode: on
the cycle where an Online-to-non-Online transition is first observed the
reconciler sets it to the reconciler's `now` (overriding the value the
poller computed), and on every later cycle of a continuing episode the
poller preserves the stored value and the reconciler writes it back
unchanged — for both the Offline-verdict path and the NVR-error path. -/
theorem last_online_is_downtime_start (now tp ts : Int) (c : Cam)
    (p : PollEntry) (txt : String) (nip ip2 ch : List Char)
    (ips nms : String) (s : String) :
    (c.status = some "Online" → txt ≠ "true" →
      (reconcileCam now (some c) ip2 ch
        (pollChannel tp (some p) txt nip ips nms).1).last_online = now) ∧
    (c.status = some s → s ≠ "Online" → txt ≠ "true" →
      p.last_online = c.last_online →
      (reconcileCam now (some c) ip2 ch
        (pollChannel tp (some p) txt nip ips nms).1).last_online
        = c.last_online) ∧
    (c.status = some "Online" →
      (reconcileCam now (some c) ip2 ch
        (errorEntryFromPrev ts "System Error" p)).last_online = now) ∧
    (c.status = some s → s ≠ "Online" → p.status = s →
      p.last_online = c.last_online →
      (reconcileCam now (some c) ip2 ch
        (errorEntryFromPrev ts "System Error" p)).last_online
        = c.last_online) := by
  refine ⟨?_, ?_, ?_, ?_⟩
  · intro h1 h2
    have ht : (txt == "true") = false := by simp [beq_eq_false_iff_ne, h2]
    simp [reconcileCam, pollChannel, wasOffline, h1, ht]
  · intro h1 h2 h3 h4
    have ht : (txt == "true") = false := by simp [beq_eq_false_iff_ne, h3]
    have hs : (some s == some "Online") = false := by
      simp [beq_eq_false_iff_ne, h2]
    simp [reconcileCam, pollChannel, wasOffline, h1, ht, hs, h4]
  · intro h1
    simp [reconcileCam, errorEntryFromPrev, wasOffline, h1]
  · intro h1 h2 h3 h4
    have hs : (some s == some "Online") = false := by
      simp [beq_eq_false_iff_ne, h2]
    have hp : (p.status == "Online") = false := by
      simp [beq_eq_false_iff_ne, h3, h2]
    simp [reconcileCam, errorEntryFromPrev, wasOffline, h1, hs, hp, h4]

/-- Concrete camera used by the C6 witness: currently Online. -/
def witCamOn : Cam :=
  { nvr_ip := ['9'], channel_id := ['1'], camera_ip := "a", camera_name := "n",
    status := some "Online", last_online := 40, last_check := 40,
    down_check_count := 0, down_alert_sent := false, alert_email_count := 0,
    is_muted := false, last_alert_time := none }

/-- Concrete camera used by the C6 witness: already Offline since 40. -/
def witCamOff : Cam :=
  { nvr_ip := ['9'], channel_id := ['1'], camera_ip := "a", camera_name := "n",
    status := some "Offline", last_online := 40, last_check := 90,
    down_check_count := 2, down_alert_sent := false, alert_email_count := 0,
    is_muted := false, last_alert_time := none }

/-- Concrete snapshot entry used by the C6 witness. -/
def witSnap : PollEntry :=
  { status := "Offline", last_online := 40, down_check_count := 2,
    ip := "a", name := "n" }

/-- Witness for C6: the transition cycle stamps `last_online := now` on both
paths, and a continuing episode leaves it untouched on both paths. -/
theorem last_online_is_downtime_start_witness :
    ((reconcileCam 100 (some witCamOn) ['9'] ['1']
        (pollChannel 90 (some witSnap) "false" ['9'] "a" "n").1).last_online
      = 100) ∧
    ((reconcileCam 100 (some witCamOff) ['9'] ['1']
        (pollChannel 90 (some witSnap) "false" ['9'] "a" "n").1).last_online
      = witCamOff.last_online) ∧
    ((reconcileCam 100 (some witCamOn) ['9'] ['1']
        (errorEntryFromPrev 90 "System Error" witSnap)).last_online = 100) ∧
    ((reconcileCam 100 (some witCamOff) ['9'] ['1']
        (errorEntryFromPrev 90 "System Error" witSnap)).last_online
      = witCamOff.last_online) :=
  ⟨(last_online_is_downtime_start 100 90 90 witCamOn witSnap "false"
      ['9'] ['9'] ['1'] "a" "n" "Offline").1 rfl (by decide),
   (last_online_is_downtime_start 100 90 90 witCamOff witSnap "false"
      ['9'] ['9'] ['1'] "a" "n" "Offline").2.1 rfl (by decide) (by decide) rfl,
   (last_online_is_downtime_start 100 90 90 witCamOn witSnap "false"
      ['9'] ['9'] ['1'] "a" "n" "Offline").2.2.1 rfl,
   (last_online_is_downtime_start 100 90 90 witCamOff witSnap "false"
      ['9'] ['9'] ['1'] "a" "n" "Offline").2.2.2 rfl (by decide) rfl rfl⟩

/-- The per-entry face of the counter invariant: an `Online` poll entry
carries counter 0, a non-`Online` one a positive counter. -/
abbrev entryInv (e : PollEntry) : Prop :=
  (e.status = "Online" → e.down_check_count = 0) ∧
  (e.status ≠ "Online" → 0 < e.down_check_count)

/-- The stored-row invariant of the claim:
`down_check_count > 0 ↔ status ≠ Online`. -/
abbrev camInv (c : Cam) : Prop :=
  0 < c.down_check_count ↔ c.status ≠ some "Online"

/-- Reconciling any row against an entry satisfying `entryInv` yields a row
satisfying `camInv` (status and counter are applied verbatim). -/
theorem camInv_of_reconcile (now : Int) (stored : Option Cam)
    (ip ch : List Char) (e : PollEntry) (he : entryInv e) :
    camInv (reconcileCam now stored ip ch e) := by
  have h1 : (reconcileCam now stored ip ch e).down_check_count
      = e.down_check_count := rfl
  have h2 : (reconcileCam now stored ip ch e).status = some e.status := rfl
  unfold camInv
  rw [h1, h2]
  constructor
  · intro hd hcontra
    have hOn : e.status = "Online" := Option.some.inj hcontra
    have := he.1 hOn
    omega
  · intro hs
    exact he.2 (fun h => hs (congrArg some h))

/-- C2: after any completed cycle, every stored camera row satisfies
`down_check_count > 0 ↔ status ≠ Online`.  Conjuncts: (1) every entry the
success-path poller produces satisfies the entry invariant (Online entries
get counter 0); (2) a non-Online verdict increments the snapshot counter,
so it is at least 1; (3) every entry the NVR-error path produces satisfies
the entry invariant; (4) reconciling a database in which the invariant
holds against poll entries satisfying the entry invariant yields a database
in which every row satisfies the invariant. -/
theorem down_count_positive_iff_not_online :
    (∀ (now : Int) (prev : Option PollEntry) (txt : String) (nip : List Char)
      (ips nms : String), entryInv (pollChannel now prev txt nip ips nms).1) ∧
    (∀ (now : Int) (p : PollEntry) (txt : String) (nip : List Char)
      (ips nms : String), txt ≠ "true" →
      (pollChannel now (some p) txt nip ips nms).1.down_check_count
        = p.down_check_count + 1) ∧
    (∀ (cfg : List (List Char)) (nip : List Char) (ts : Int) (detail : String)
      (snap : List (List Char × PollEntry)) (kv : List Char × PollEntry),
      kv ∈ update_nvr_state_on_error cfg nip "System Error" ts detail snap →
      entryInv kv.2) ∧
    (∀ (cfgIps : List (List Char)) (dbCams : List Cam)
      (poll : List (List Char × PollEntry)) (now : Int),
      (∀ c ∈ dbCams, camInv c) → (∀ kv ∈ poll, entryInv kv.2) →
      ∀ c ∈ save_state_core cfgIps dbCams poll now, camInv c) := by
  refine ⟨?_, ?_, ?_, ?_⟩
  · intro now prev txt nip ips nms
    simp only [pollChannel]
    split
    · exact ⟨fun _ => rfl, fun h => absurd rfl h⟩
    · refine ⟨fun h => absurd h ?_, fun _ => ?_⟩
      · exact (show ¬("Offline" : String) = "Online" from by decide)
      · simp
  · intro now p txt nip ips nms ht
    have h : (txt == "true") = false := by simp [beq_eq_false_iff_ne, ht]
    simp [pollChannel, h]
  · intro cfg nip ts detail snap kv hkv
    simp only [update_nvr_state_on_error] at hkv
    split at hkv
    · simp at hkv
    · split at hkv
      · simp only [List.mem_singleton] at hkv
        subst hkv
        exact ⟨fun h => absurd h
            (show ¬("System Error" : String) = "Online" from by decide),
          fun _ => by simp⟩
      · rw [List.mem_map] at hkv
        obtain ⟨a, _, hae⟩ := hkv
        subst hae
        exact ⟨fun h => absurd h
            (show ¬("System Error" : String) = "Online" from by decide),
          fun _ => by simp [errorEntryFromPrev]⟩
  · intro cfgIps dbCams poll now hdb hpoll c hc
    simp only [save_state_core, List.mem_append] at hc
    rcases hc with hc | hc
    · rw [List.mem_filterMap] at hc
      obtain ⟨a, ha, hfa⟩ := hc
      split at hfa
      · cases hfa
      · split at hfa
        · split at hfa
          · rename_i kv hfind
            have hkv : kv ∈ poll := by
              have hmem := List.mem_of_find?_eq_some hfind
              exact (List.mem_filter.mp hmem).1
            cases hfa
            exact camInv_of_reconcile _ _ _ _ _ (hpoll kv hkv)
          · cases hfa
            exact hdb _ ha
        · cases hfa
          exact hdb _ ha
    · rw [List.mem_filterMap] at hc
      obtain ⟨kv, hkv, hfkv⟩ := hc
      split at hfkv
      · cases hfkv
      · have hkvp : kv ∈ poll := (List.mem_filter.mp hkv).1
        cases hfkv
        exact camInv_of_reconcile _ _ _ _ _ (hpoll kv hkvp)

/-- Concrete offline poll entry used by witnesses. -/
def witEntryOff : PollEntry :=
  { status := "Offline", last_online := 40, down_check_count := 3,
    ip := "a", name := "n" }

/-- Witness for C2 at a concrete cycle. -/
theorem down_count_positive_iff_not_online_witness :
    camInv (reconcileCam 100 (some witCamOff) ['9'] ['1'] witEntryOff) :=
  down_count_positive_iff_not_online.2.2.2 [['9']] [witCamOff]
    [(['9', '-', '1'], witEntryOff)] 100 (by decide) (by decide) _ (by decide)

/-- The first-dash split predicate never holds at a dash. -/
theorem takeWhile_no_dash (b : List Char) :
    ∀ a : List Char, '-' ∉ a →
      List.takeWhile (fun ch => decide (ch ≠ '-')) (a ++ '-' :: b) = a := by
  intro a
  induction a with
  | nil =>
    intro _
    rw [List.nil_append, List.takeWhile_cons_of_neg]
    simp
  | cons x xs ih =>
    intro h
    have hx : x ≠ '-' := fun he => h (by simp [he])
    rw [List.cons_append, List.takeWhile_cons_of_pos (by simp [hx])]
    rw [ih (fun hm => h (List.mem_cons_of_mem _ hm))]

/-- Companion of `takeWhile_no_dash` for the tail half. -/
theorem dropWhile_no_dash (b : List Char) :
    ∀ a : List Char, '-' ∉ a →
      List.dropWhile (fun ch => decide (ch ≠ '-')) (a ++ '-' :: b)
        = '-' :: b := by
  intro a
  induction a with
  | nil =>
    intro _
    rw [List.nil_append, List.dropWhile_cons_of_neg]
    simp
  | cons x xs ih =>
    intro h
    have hx : x ≠ '-' := fun he => h (by simp [he])
    rw [List.cons_append, List.dropWhile_cons_of_pos (by simp [hx])]
    exact ih (fun hm => h (List.mem_cons_of_mem _ hm))

/-- Splitting a built key at the first dash recovers the pair, whenever the
first component is dash-free (channel ids may contain dashes). -/
theorem splitFirst_mkKey (a b : List Char) (h : '-' ∉ a) :
    splitFirst (mkKey a b) = (a, b) := by
  unfold splitFirst mkKey
  rw [takeWhile_no_dash b a h, dropWhile_no_dash b a h]
  rfl

/-- Rejoining the two halves of a dash-containing key gives back the key. -/
theorem mkKey_splitFirst (k : List Char) (h : '-' ∈ k) :
    mkKey (splitFirst k).1 (splitFirst k).2 = k := by
  induction k with
  | nil => cases h
  | cons x xs ih =>
    by_cases hx : x = '-'
    · subst hx
      simp [splitFirst, mkKey]
    · have hxs : '-' ∈ xs := by
        rcases List.mem_cons.mp h with h1 | h1
        · exact absurd h1.symm hx
        · exact h1
      have ih2 := ih hxs
      unfold splitFirst at ih2 ⊢
      rw [List.takeWhile_cons_of_pos (by simp [hx]),
        List.dropWhile_cons_of_pos (by simp [hx])]
      unfold mkKey at ih2 ⊢
      rw [List.cons_append, ih2]

/-- A dash-terminated filter string matches a built key exactly for the
matching NVR: `key.startswith(f"{ip}-")` holds iff `ip` is the key's NVR
part (both dash-free). -/
theorem dash_filter_iff (b : List Char) :
    ∀ (ip a : List Char), '-' ∉ ip → '-' ∉ a →
      ((ip ++ ['-']) <+: mkKey a b ↔ ip = a) := by
  intro ip
  induction ip with
  | nil =>
    intro a hip ha
    cases a with
    | nil => simp [mkKey]
    | cons y ys =>
      have hy : ¬('-' = y) := fun he => ha (by simp [he.symm])
      simp [mkKey, List.cons_prefix_cons, hy]
  | cons x xs ih =>
    intro a hip ha
    have hx : ¬(x = '-') := fun he => hip (by simp [he])
    cases a with
    | nil =>
      simp [mkKey, List.cons_prefix_cons, hx]
    | cons y ys =>
      have hxs : '-' ∉ xs := fun hm => hip (List.mem_cons_of_mem _ hm)
      have hys : '-' ∉ ys := fun hm => ha (List.mem_cons_of_mem _ hm)
      have ih2 := ih ys hxs hys
      simp only [mkKey] at ih2
      simp only [mkKey, List.cons_append, List.cons_prefix_cons]
      constructor
      · rintro ⟨hxy, hpre⟩
        have : xs = ys := by
          rw [← ih2]
          exact hpre
        simp [hxy, this]
      · intro he
        rw [List.cons.injEq] at he
        refine ⟨he.1, ?_⟩
        rw [ih2]
        exact he.2

/-- C10: the composite-key encoding round-trips: for a dash-free NVR ip,
building `f"{nvr_ip}-{channel_id}"` and splitting at the first dash
recovers exactly the pair; the per-NVR `startswith(f"{nvr_ip}-")` filter
selects exactly the keys built from that NVR; splitting then rejoining any
dash-containing key is the identity (so pruning deletes the record the key
was built from); and a record created by the reconciler from a split key
carries exactly the original pair. -/
theorem composite_key_encoding_consistent :
    (∀ a b : List Char, '-' ∉ a → splitFirst (mkKey a b) = (a, b)) ∧
    (∀ ip a b : List Char, '-' ∉ ip → '-' ∉ a →
      ((ip ++ ['-']).isPrefixOf (mkKey a b) = true ↔ ip = a)) ∧
    (∀ k : List Char, '-' ∈ k →
      mkKey (splitFirst k).1 (splitFirst k).2 = k) ∧
    (∀ (now : Int) (e : PollEntry) (a b : List Char), '-' ∉ a →
      (reconcileCam now none (splitFirst (mkKey a b)).1
          (splitFirst (mkKey a b)).2 e).nvr_ip = a ∧
      (reconcileCam now none (splitFirst (mkKey a b)).1
          (splitFirst (mkKey a b)).2 e).channel_id = b) := by
  refine ⟨splitFirst_mkKey, ?_, mkKey_splitFirst, ?_⟩
  · intro ip a b hip ha
    rw [List.isPrefixOf_iff_prefix]
    exact dash_filter_iff b ip a hip ha
  · intro now e a b ha
    have h1 : (reconcileCam now none (splitFirst (mkKey a b)).1
        (splitFirst (mkKey a b)).2 e).nvr_ip = (splitFirst (mkKey a b)).1 := by
      simp [reconcileCam, newCam, wasOffline]
    have h2 : (reconcileCam now none (splitFirst (mkKey a b)).1
        (splitFirst (mkKey a b)).2 e).channel_id
        = (splitFirst (mkKey a b)).2 := by
      simp [reconcileCam, newCam, wasOffline]
    rw [h1, h2, splitFirst_mkKey a b ha]
    exact ⟨rfl, rfl⟩

/-- Witness for C10 on a concrete key with a dash inside the channel id. -/
theorem composite_key_encoding_consistent_witness :
    splitFirst (mkKey ['9', '.', '1'] ['2', '-', '3'])
      = (['9', '.', '1'], ['2', '-', '3']) ∧
    ((['9', '.', '1'] ++ ['-']).isPrefixOf
        (mkKey ['9', '.', '1'] ['2', '-', '3']) = true ↔
      ['9', '.', '1'] = ['9', '.', '1']) ∧
    mkKey (splitFirst ['9', '-', '5']).1 (splitFirst ['9', '-', '5']).2
      = ['9', '-', '5'] :=
  ⟨composite_key_encoding_consistent.1 ['9', '.', '1'] ['2', '-', '3']
      (by decide),
   composite_key_encoding_consistent.2.1 ['9', '.', '1'] ['9', '.', '1']
      ['2', '-', '3'] (by decide) (by decide),
   composite_key_encoding_consistent.2.2.1 ['9', '-', '5'] (by decide)⟩

/-- Snapshot for the C7 counterexample: one channel of NVR `9`, currently
Online with counter 0. -/
def c7snap : List (List Char × PollEntry) :=
  [(['9', '-', '1'],
    { status := "Online", last_online := 0, down_check_count := 0,
      ip := "a", name := "n" })]

/-- Counterexample to C7 as stated: when NVR `9` fails (connection error),
the channel's consecutive offline count first reaches 1 on this poll, yet
the events logged by the error path contain no `camera_down` event — the
claimed "exactly once per downtime episode, at the poll where the count
first reaches 1" fails for episodes that begin with an NVR-level error. -/
theorem camera_down_missing_on_nvr_error_path :
    lookupKey (poll_nvr_error_path [['9']] ['9'] 60 "Connection Failed"
        c7snap).1 ['9', '-', '1']
      = some { status := "System Error", last_online := 60,
               down_check_count := 1, ip := "a", name := "n" } ∧
    (poll_nvr_error_path [['9']] ['9'] 60 "Connection Failed"
        c7snap).2.any isCameraDown = false := by decide

/-- C7 amended: `camera_down` is emitted exactly at polls where a
successful NVR response reports the channel non-Online and the consecutive
offline count reaches exactly 1 (hence never on later checks of the same
episode); the NVR-error path never emits `camera_down`, so an episode that
begins with an NVR-level error produces none. -/
theorem camera_down_iff_first_offline_verdict :
    (∀ (now : Int) (prev : Option PollEntry) (txt : String) (nip : List Char)
      (ips nms : String),
      ((pollChannel now prev txt nip ips nms).2.any isCameraDown = true ↔
        (txt ≠ "true" ∧
          (pollChannel now prev txt nip ips nms).1.down_check_count = 1))) ∧
    (∀ (cfg : List (List Char)) (nip : List Char) (ts : Int)
      (detail : String) (snap : List (List Char × PollEntry)),
      (poll_nvr_error_path cfg nip ts detail snap).2.any isCameraDown
        = false) := by
  constructor
  · intro now prev txt nip ips nms
    simp only [pollChannel]
    split
    · rename_i h
      have : txt = "true" := by simpa [beq_iff_eq] using h
      simp [this]
    · rename_i h
      have ht : txt ≠ "true" := by simpa [beq_iff_eq] using h
      simp only [List.any_eq_true]
      constructor
      · rintro ⟨ev, hev, _⟩
        rw [List.mem_ite_nil_right] at hev
        refine ⟨ht, ?_⟩
        have := hev.1
        simpa [Nat.beq_eq] using this
      · rintro ⟨-, hcount⟩
        have h1 : (match prev with
            | some p => p.down_check_count
            | none => 0) + 1 = 1 := hcount
        refine ⟨Event.camera_down nip ips nms 1, ?_, rfl⟩
        rw [h1]
        simp
  · intro cfg nip ts detail snap
    rfl

/-- Reconciling an existing row never changes its identity columns. -/
theorem reconcileCam_some_ids (now : Int) (c : Cam) (x y : List Char)
    (e : PollEntry) :
    (reconcileCam now (some c) x y e).nvr_ip = c.nvr_ip ∧
    (reconcileCam now (some c) x y e).channel_id = c.channel_id := by
  unfold reconcileCam
  dsimp only
  constructor <;> (split <;> rfl)

/-- A freshly created row carries the identity columns it was created
with. -/
theorem reconcileCam_none_ids (now : Int) (x y : List Char) (e : PollEntry) :
    (reconcileCam now none x y e).nvr_ip = x ∧
    (reconcileCam now none x y e).channel_id = y := by
  constructor <;> rfl

/-- Every built key contains a dash. -/
theorem mkKey_has_dash (a b : List Char) : '-' ∈ mkKey a b := by
  simp [mkKey]

/-- A key starts with its own NVR's dash-terminated filter string. -/
theorem isPrefixOf_mkKey_self (a b : List Char) :
    (a ++ ['-']).isPrefixOf (mkKey a b) = true := by
  rw [List.isPrefixOf_iff_prefix]
  have h : mkKey a b = (a ++ ['-']) ++ b := by simp [mkKey]
  rw [h]
  exact List.prefix_append _ _

/-- A stored row of a configured NVR always passes the per-NVR key filter
on its own key. -/
theorem isActiveKey_camKey (cfgIps : List (List Char)) (c : Cam)
    (h : c.nvr_ip ∈ cfgIps) : isActiveKey cfgIps (camKey c) = true := by
  unfold isActiveKey camKey
  rw [List.any_eq_true]
  exact ⟨c.nvr_ip, h, isPrefixOf_mkKey_self _ _⟩

/-- A key passing the per-NVR filter contains a dash. -/
theorem isActiveKey_has_dash (cfgIps : List (List Char)) (k : List Char)
    (h : isActiveKey cfgIps k = true) : '-' ∈ k := by
  unfold isActiveKey at h
  rw [List.any_eq_true] at h
  obtain ⟨ip, _, hpre⟩ := h
  rw [List.isPrefixOf_iff_prefix] at hpre
  exact hpre.subset (by simp)

/-- Keys of active poll entries are poll keys. -/
theorem active_key_mem_poll (cfgIps : List (List Char))
    (poll : List (List Char × PollEntry)) (k : List Char)
    (hk : k ∈ (activeEntries cfgIps poll).map Prod.fst) :
    k ∈ poll.map Prod.fst := by
  rw [List.mem_map] at hk ⊢
  obtain ⟨kv, hkv, hfst⟩ := hk
  exact ⟨kv, (List.mem_filter.mp hkv).1, hfst⟩

/-- C8: pruning is exact.  For a stored row of a configured, dash-free NVR:
if its composite key is absent from the cycle's poll-result key set, no row
with its `(nvr_ip, channel_id)` pair survives the cycle's reconciliation;
and if its key does appear among the poll keys, a row with its pair is
present after reconciliation (the record is never deleted). -/
theorem stale_pruned_active_kept (cfgIps : List (List Char))
    (dbCams : List Cam) (poll : List (List Char × PollEntry)) (now : Int)
    (c : Cam) (hc : c ∈ dbCams) (hcfg : c.nvr_ip ∈ cfgIps)
    (hdash : '-' ∉ c.nvr_ip) :
    (camKey c ∉ poll.map Prod.fst →
      ∀ c' ∈ save_state_core cfgIps dbCams poll now,
        ¬(c'.nvr_ip = c.nvr_ip ∧ c'.channel_id = c.channel_id)) ∧
    (camKey c ∈ poll.map Prod.fst →
      ∃ c' ∈ save_state_core cfgIps dbCams poll now,
        c'.nvr_ip = c.nvr_ip ∧ c'.channel_id = c.channel_id) := by
  constructor
  · -- absent from the poll keys: every surviving row has a different pair
    intro habs c' hc'
    rintro ⟨h1, h2⟩
    have hstale : (c.nvr_ip, c.channel_id) ∈ stalePairs cfgIps dbCams poll := by
      unfold stalePairs
      rw [List.mem_map]
      refine ⟨camKey c, ?_, splitFirst_mkKey _ _ hdash⟩
      rw [List.mem_filter]
      refine ⟨?_, ?_⟩
      · rw [List.mem_map]
        refine ⟨c, ?_, rfl⟩
        unfold inScopeRows
        rw [List.mem_filter]
        exact ⟨hc, by simp [hcfg]⟩
      · simp only [Bool.not_eq_true', List.contains]
        simp only [List.elem_eq_mem, decide_eq_false_iff_not]
        intro hmem
        exact habs (active_key_mem_poll cfgIps poll _ hmem)
    simp only [save_state_core, List.mem_append] at hc'
    rcases hc' with h | h
    · rw [List.mem_filterMap] at h
      obtain ⟨a, ha, hfa⟩ := h
      split at hfa
      · cases hfa
      · rename_i hnotStale
        split at hfa
        · split at hfa
          · rename_i kv hfind
            cases hfa
            have hids := reconcileCam_some_ids now a a.nvr_ip a.channel_id kv.2
            rw [hids.1] at h1
            rw [hids.2] at h2
            apply hnotStale
            rw [h1, h2]
            simp [hstale]
          · cases hfa
            apply hnotStale
            rw [h1, h2]
            simp [hstale]
        · rename_i hnotCfg
          cases hfa
          apply hnotCfg
          rw [h1]
          simp [hcfg]
    · rw [List.mem_filterMap] at h
      obtain ⟨kv, hkv, hfkv⟩ := h
      split at hfkv
      · cases hfkv
      · cases hfkv
        have hkdash : '-' ∈ kv.1 := by
          unfold activeEntries at hkv
          exact isActiveKey_has_dash cfgIps kv.1 ((List.mem_filter.mp hkv).2)
        have hrejoin := mkKey_splitFirst kv.1 hkdash
        have hn := (reconcileCam_none_ids now (splitFirst kv.1).1
          (splitFirst kv.1).2 kv.2).1
        have hch := (reconcileCam_none_ids now (splitFirst kv.1).1
          (splitFirst kv.1).2 kv.2).2
        rw [hn] at h1
        rw [hch] at h2
        have hkey : kv.1 = camKey c := by
          rw [← hrejoin, h1, h2]
          rfl
        apply habs
        rw [← hkey]
        rw [List.mem_map]
        exact ⟨kv, (List.mem_filter.mp hkv).1, rfl⟩
  · -- present among the poll keys: the updated row survives
    intro hmem
    rw [List.mem_map] at hmem
    obtain ⟨kv, hkv, hfst⟩ := hmem
    have hactive : kv ∈ activeEntries cfgIps poll := by
      unfold activeEntries
      rw [List.mem_filter]
      refine ⟨hkv, ?_⟩
      rw [hfst]
      exact isActiveKey_camKey cfgIps c hcfg
    have hfindSome : ((activeEntries cfgIps poll).find?
        (fun kv => camKey c == kv.1)).isSome := by
      rw [List.find?_isSome]
      exact ⟨kv, hactive, by simp [hfst]⟩
    obtain ⟨kv0, hfind0⟩ := Option.isSome_iff_exists.mp hfindSome
    have hnstale : ((stalePairs cfgIps dbCams poll).contains
        (c.nvr_ip, c.channel_id)) = false := by
      simp only [List.contains, List.elem_eq_mem, decide_eq_false_iff_not]
      intro hst
      unfold stalePairs at hst
      rw [List.mem_map] at hst
      obtain ⟨k, hk, hsplit⟩ := hst
      rw [List.mem_filter] at hk
      obtain ⟨hk1, hk2⟩ := hk
      rw [List.mem_map] at hk1
      obtain ⟨a, _, hak⟩ := hk1
      have hkdash : '-' ∈ k := by
        rw [← hak]
        exact mkKey_has_dash _ _
      have hkc : k = camKey c := by
        have := mkKey_splitFirst k hkdash
        rw [hsplit] at this
        rw [← this]
        rfl
      simp only [Bool.not_eq_true', List.contains] at hk2
      simp only [List.elem_eq_mem, decide_eq_false_iff_not] at hk2
      apply hk2
      rw [hkc, List.mem_map]
      exact ⟨kv, hactive, hfst⟩
    refine ⟨reconcileCam now (some c) c.nvr_ip c.channel_id kv0.2, ?_, ?_, ?_⟩
    · simp only [save_state_core, List.mem_append]
      left
      rw [List.mem_filterMap]
      refine ⟨c, hc, ?_⟩
      have hcfgb : (cfgIps.contains c.nvr_ip) = true := by simp [hcfg]
      simp only [hnstale, Bool.false_eq_true, if_false, hcfgb, if_true,
        hfind0]
    · exact (reconcileCam_some_ids now c c.nvr_ip c.channel_id kv0.2).1
    · exact (reconcileCam_some_ids now c c.nvr_ip c.channel_id kv0.2).2

/-- A second configured camera on channel 2, used by the C8 witness. -/
def witCam2 : Cam :=
  { nvr_ip := ['9'], channel_id := ['2'], camera_ip := "b", camera_name := "m",
    status := some "Offline", last_online := 40, last_check := 90,
    down_check_count := 2, down_alert_sent := false, alert_email_count := 0,
    is_muted := false, last_alert_time := none }

/-- Witness for C8: with cameras on channels 1 and 2 stored and only
channel 2 polled, channel 1's pair does not survive and channel 2's does. -/
theorem stale_pruned_active_kept_witness :
    (¬((reconcileCam 100 (some witCam2) ['9'] ['2'] witEntryOff).nvr_ip
          = witCamOff.nvr_ip ∧
        (reconcileCam 100 (some witCam2) ['9'] ['2'] witEntryOff).channel_id
          = witCamOff.channel_id)) ∧
    (∃ c' ∈ save_state_core [['9']] [witCamOff, witCam2]
        [(['9', '-', '2'], witEntryOff)] 100,
      c'.nvr_ip = witCam2.nvr_ip ∧ c'.channel_id = witCam2.channel_id) :=
  ⟨(stale_pruned_active_kept [['9']] [witCamOff, witCam2]
        [(['9', '-', '2'], witEntryOff)] 100 witCamOff (by decide) (by decide)
        (by decide)).1 (by decide) _ (by decide),
   (stale_pruned_active_kept [['9']] [witCamOff, witCam2]
        [(['9', '-', '2'], witEntryOff)] 100 witCam2 (by decide) (by decide)
        (by decide)).2 (by decide)⟩

/-- Forgetting the `last_online` column (for comparing reconciliation
results on all other fields). -/
def eraseLastOnline (c : Cam) : Cam := { c with last_online := 0 }

/-- What the second application of the reconciler does to a surviving row:
rows of configured NVRs whose key is processed get reconciled against the
same entry again, all other rows are untouched. -/
def touchAgain (cfgIps : List (List Char))
    (poll : List (List Char × PollEntry)) (now : Int) (r : Cam) : Cam :=
  if cfgIps.contains r.nvr_ip then
    match (activeEntries cfgIps poll).find? (fun kv => camKey r == kv.1) with
    | some kv => reconcileCam now (some r) r.nvr_ip r.channel_id kv.2
    | none => r
  else r

/-- Re-reconciling a freshly reconciled row against the same entry changes
nothing but `last_online`, which is rewritten to the entry's preserved
value. -/
theorem reconcile_again (now : Int) (st : Option Cam) (x y x2 y2 : List Char)
    (e : PollEntry) :
    reconcileCam now (some (reconcileCam now st x y e)) x2 y2 e
      = { reconcileCam now st x y e with last_online := e.last_online } := by
  by_cases he : e.status = "Online" <;>
    simp [reconcileCam, wasOffline, he]

/-- A `filterMap` that is pointwise `some` is a `map`. -/
theorem filterMap_eq_map_of {α β : Type} (l : List α) (f : α → Option β)
    (g : α → β) (h : ∀ a ∈ l, f a = some (g a)) : l.filterMap f = l.map g := by
  induction l with
  | nil => rfl
  | cons x xs ih =>
    rw [List.filterMap_cons, h x (List.mem_cons_self x xs), List.map_cons,
      ih (fun a ha => h a (List.mem_cons_of_mem _ ha))]

/-- A key matched by a dash-free NVR's filter splits into that NVR and a
tail, and rejoins to itself. -/
theorem key_matched_by_filter (ip k : List Char) (hip : '-' ∉ ip)
    (h : (ip ++ ['-']).isPrefixOf k = true) :
    ∃ t, k = mkKey ip t ∧ splitFirst k = (ip, t) := by
  rw [List.isPrefixOf_iff_prefix] at h
  obtain ⟨t, ht⟩ := h
  have hk : k = mkKey ip t := by
    rw [← ht]
    simp [mkKey]
  exact ⟨t, hk, by rw [hk]; exact splitFirst_mkKey ip t hip⟩

/-- Every surviving row of a configured NVR was produced by reconciling
some stored-or-fresh state against the active poll entry bearing its own
key. -/
theorem d1_row_struct (cfgIps : List (List Char)) (dbCams : List Cam)
    (poll : List (List Char × PollEntry)) (now : Int)
    (hdb : ∀ c ∈ dbCams, '-' ∉ c.nvr_ip)
    (r : Cam) (hr : r ∈ save_state_core cfgIps dbCams poll now)
    (hrc : cfgIps.contains r.nvr_ip = true) :
    ∃ kv, kv ∈ activeEntries cfgIps poll ∧ kv.1 = camKey r ∧
      ∃ st : Option Cam,
        r = reconcileCam now st r.nvr_ip r.channel_id kv.2 := by
  simp only [save_state_core, List.mem_append] at hr
  rcases hr with h | h
  · rw [List.mem_filterMap] at h
    obtain ⟨a, ha, hfa⟩ := h
    split at hfa
    · cases hfa
    · rename_i hnotStale
      split at hfa
      · rename_i hacfg
        split at hfa
        · rename_i kv hfind
          have hr2 := Option.some.inj hfa
          have hids := reconcileCam_some_ids now a a.nvr_ip a.channel_id kv.2
          have hbeq := List.find?_some hfind
          have hkey : camKey a = kv.1 := by simpa using hbeq
          refine ⟨kv, List.mem_of_find?_eq_some hfind, ?_, some a, ?_⟩
          · rw [← hr2]
            unfold camKey
            rw [hids.1, hids.2]
            exact hkey.symm
          · rw [← hr2, hids.1, hids.2]
        · rename_i hfind
          exfalso
          apply hnotStale
          have hmem : (a.nvr_ip, a.channel_id)
              ∈ stalePairs cfgIps dbCams poll := by
            unfold stalePairs
            rw [List.mem_map]
            refine ⟨camKey a, ?_, splitFirst_mkKey _ _ (hdb a ha)⟩
            rw [List.mem_filter]
            refine ⟨?_, ?_⟩
            · rw [List.mem_map]
              refine ⟨a, ?_, rfl⟩
              unfold inScopeRows
              rw [List.mem_filter]
              exact ⟨ha, hacfg⟩
            · simp only [Bool.not_eq_true', List.contains,
                List.elem_eq_mem, decide_eq_false_iff_not]
              intro hk
              rw [List.mem_map] at hk
              obtain ⟨kv, hkv, hkfst⟩ := hk
              rw [List.find?_eq_none] at hfind
              exact hfind kv hkv (by simp [hkfst])
          simp [hmem]
      · rename_i hnotCfg
        have hr2 := Option.some.inj hfa
        exfalso
        apply hnotCfg
        rw [hr2]
        exact hrc
  · rw [List.mem_filterMap] at h
    obtain ⟨kv, hkv, hfkv⟩ := h
    split at hfkv
    · cases hfkv
    · have hr2 := Option.some.inj hfkv
      have hkdash : '-' ∈ kv.1 := by
        unfold activeEntries at hkv
        exact isActiveKey_has_dash cfgIps kv.1 ((List.mem_filter.mp hkv).2)
      have hn := reconcileCam_none_ids now (splitFirst kv.1).1
        (splitFirst kv.1).2 kv.2
      refine ⟨kv, hkv, ?_, none, ?_⟩
      · rw [← hr2]
        unfold camKey
        rw [hn.1, hn.2]
        exact (mkKey_splitFirst kv.1 hkdash).symm
      · rw [← hr2, hn.1, hn.2]

/-- Every active poll key is covered after reconciliation by a surviving
configured row bearing it. -/
theorem d1_key_covered (cfgIps : List (List Char)) (dbCams : List Cam)
    (poll : List (List Char × PollEntry)) (now : Int)
    (hcfg : ∀ ip ∈ cfgIps, '-' ∉ ip)
    (kv : List Char × PollEntry) (hkv : kv ∈ activeEntries cfgIps poll) :
    ∃ r, r ∈ save_state_core cfgIps dbCams poll now ∧
      cfgIps.contains r.nvr_ip = true ∧ camKey r = kv.1 := by
  by_cases hex :
      ((inScopeRows cfgIps dbCams).any (fun c => camKey c == kv.1)) = true
  · rw [List.any_eq_true] at hex
    obtain ⟨a, haScope, habeq⟩ := hex
    have hak : camKey a = kv.1 := by simpa using habeq
    have haDb : a ∈ dbCams := by
      unfold inScopeRows at haScope
      exact (List.mem_filter.mp haScope).1
    have haCfg : cfgIps.contains a.nvr_ip = true := by
      unfold inScopeRows at haScope
      exact (List.mem_filter.mp haScope).2
    have hfindSome : ((activeEntries cfgIps poll).find?
        (fun kv2 => camKey a == kv2.1)).isSome := by
      rw [List.find?_isSome]
      exact ⟨kv, hkv, habeq⟩
    obtain ⟨kv0, hfind0⟩ := Option.isSome_iff_exists.mp hfindSome
    have hnstale : ((stalePairs cfgIps dbCams poll).contains
        (a.nvr_ip, a.channel_id)) = false := by
      simp only [List.contains, List.elem_eq_mem, decide_eq_false_iff_not]
      intro hst
      unfold stalePairs at hst
      rw [List.mem_map] at hst
      obtain ⟨k, hk, hsplit⟩ := hst
      rw [List.mem_filter] at hk
      obtain ⟨hk1, hk2⟩ := hk
      rw [List.mem_map] at hk1
      obtain ⟨b, hbScope, hbk⟩ := hk1
      have hkdash : '-' ∈ k := by
        rw [← hbk]
        exact mkKey_has_dash _ _
      have hkc : k = camKey a := by
        have h2 := mkKey_splitFirst k hkdash
        rw [hsplit] at h2
        rw [← h2]
        rfl
      simp only [Bool.not_eq_true', List.contains, List.elem_eq_mem,
        decide_eq_false_iff_not] at hk2
      apply hk2
      rw [hkc, hak, List.mem_map]
      exact ⟨kv, hkv, rfl⟩
    have hids := reconcileCam_some_ids now a a.nvr_ip a.channel_id kv0.2
    refine ⟨reconcileCam now (some a) a.nvr_ip a.channel_id kv0.2, ?_, ?_, ?_⟩
    · simp only [save_state_core, List.mem_append]
      left
      rw [List.mem_filterMap]
      refine ⟨a, haDb, ?_⟩
      simp only [hnstale, Bool.false_eq_true, if_false, haCfg, if_true,
        hfind0]
    · rw [hids.1]
      exact haCfg
    · unfold camKey
      rw [hids.1, hids.2]
      exact hak
  · unfold activeEntries at hkv
    have hActive : isActiveKey cfgIps kv.1 = true := (List.mem_filter.mp hkv).2
    have hkvPoll : kv ∈ poll := (List.mem_filter.mp hkv).1
    have hkdash : '-' ∈ kv.1 := isActiveKey_has_dash cfgIps kv.1 hActive
    unfold isActiveKey at hActive
    rw [List.any_eq_true] at hActive
    obtain ⟨ip, hip, hpre⟩ := hActive
    obtain ⟨t, hkt, hsplit⟩ := key_matched_by_filter ip kv.1 (hcfg ip hip) hpre
    have hn := reconcileCam_none_ids now (splitFirst kv.1).1
      (splitFirst kv.1).2 kv.2
    refine ⟨reconcileCam now none (splitFirst kv.1).1 (splitFirst kv.1).2 kv.2,
      ?_, ?_, ?_⟩
    · simp only [save_state_core, List.mem_append]
      right
      rw [List.mem_filterMap]
      refine ⟨kv, ?_, ?_⟩
      · unfold activeEntries
        rw [List.mem_filter]
        refine ⟨hkvPoll, ?_⟩
        unfold isActiveKey
        rw [List.any_eq_true]
        exact ⟨ip, hip, hpre⟩
      · rw [if_neg hex]
    · rw [hn.1, hsplit]
      simp [hip]
    · unfold camKey
      rw [hn.1, hn.2]
      exact mkKey_splitFirst kv.1 hkdash

/-- After one reconciliation, a second pass finds nothing stale. -/
theorem stale2_empty (cfgIps : List (List Char)) (dbCams : List Cam)
    (poll : List (List Char × PollEntry)) (now : Int)
    (hdb : ∀ c ∈ dbCams, '-' ∉ c.nvr_ip) :
    stalePairs cfgIps (save_state_core cfgIps dbCams poll now) poll = [] := by
  unfold stalePairs
  rw [List.map_eq_nil_iff, List.filter_eq_nil_iff]
  intro k hk
  rw [List.mem_map] at hk
  obtain ⟨r, hrScope, hrk⟩ := hk
  unfold inScopeRows at hrScope
  have hrD1 : r ∈ save_state_core cfgIps dbCams poll now :=
    (List.mem_filter.mp hrScope).1
  have hrCfg : cfgIps.contains r.nvr_ip = true :=
    (List.mem_filter.mp hrScope).2
  obtain ⟨kv, hkv, hkey, -⟩ :=
    d1_row_struct cfgIps dbCams poll now hdb r hrD1 hrCfg
  simp only [Bool.not_eq_true', List.contains, List.elem_eq_mem,
    decide_eq_false_iff_not, not_not]
  rw [List.mem_map]
  exact ⟨kv, hkv, by rw [hkey, hrk]⟩

/-- A second reconciliation pass with the same poll results only re-touches
each surviving row in place: nothing is pruned and nothing is created. -/
theorem second_pass_is_touchAgain (cfgIps : List (List Char))
    (dbCams : List Cam) (poll : List (List Char × PollEntry)) (now : Int)
    (hcfg : ∀ ip ∈ cfgIps, '-' ∉ ip) (hdb : ∀ c ∈ dbCams, '-' ∉ c.nvr_ip) :
    save_state_core cfgIps (save_state_core cfgIps dbCams poll now) poll now
      = (save_state_core cfgIps dbCams poll now).map
          (touchAgain cfgIps poll now) := by
  have hstale := stale2_empty cfgIps dbCams poll now hdb
  have hsplit : save_state_core cfgIps
      (save_state_core cfgIps dbCams poll now) poll now
      = (save_state_core cfgIps dbCams poll now).filterMap (fun c =>
          if (stalePairs cfgIps (save_state_core cfgIps dbCams poll now)
              poll).contains (c.nvr_ip, c.channel_id) then none
          else if cfgIps.contains c.nvr_ip then
            match (activeEntries cfgIps poll).find?
                (fun kv => camKey c == kv.1) with
            | some kv =>
              some (reconcileCam now (some c) c.nvr_ip c.channel_id kv.2)
            | none => some c
          else some c)
        ++ (activeEntries cfgIps poll).filterMap (fun kv =>
          if (inScopeRows cfgIps
              (save_state_core cfgIps dbCams poll now)).any
              (fun c => camKey c == kv.1) then none
          else some (reconcileCam now none (splitFirst kv.1).1
            (splitFirst kv.1).2 kv.2)) := rfl
  rw [hsplit]
  have hfresh : (activeEntries cfgIps poll).filterMap (fun kv =>
      if (inScopeRows cfgIps
          (save_state_core cfgIps dbCams poll now)).any
          (fun c => camKey c == kv.1) then none
      else some (reconcileCam now none (splitFirst kv.1).1
        (splitFirst kv.1).2 kv.2)) = [] := by
    rw [List.filterMap_eq_nil_iff]
    intro kv hkv
    obtain ⟨r, hrD1, hrCfg, hrKey⟩ :=
      d1_key_covered cfgIps dbCams poll now hcfg kv hkv
    rw [if_pos]
    rw [List.any_eq_true]
    refine ⟨r, ?_, by simp [hrKey]⟩
    unfold inScopeRows
    rw [List.mem_filter]
    exact ⟨hrD1, hrCfg⟩
  rw [hfresh, List.append_nil]
  apply filterMap_eq_map_of
  intro r hrD1
  rw [hstale]
  unfold touchAgain
  rw [if_neg (by simp)]
  by_cases hcfgr : cfgIps.contains r.nvr_ip = true
  · rw [if_pos hcfgr, if_pos hcfgr]
    cases hfind : (activeEntries cfgIps poll).find?
        (fun kv => camKey r == kv.1) with
    | none => rfl
    | some kv => rfl
  · rw [if_neg hcfgr, if_neg hcfgr]

/-- The poll entry an Online camera's first offline cycle produces: the
poller preserves the stored `last_online` (40) while the reconciler stamps
`now`. -/
def c9entry : PollEntry :=
  { status := "Offline", last_online := 40, down_check_count := 1,
    ip := "a", name := "n" }

/-- Counterexample to C9 as stated: reconciling a stored-Online camera
against an offline poll entry once stamps `last_online := now`; applying
the reconciler a second time with the same poll results regresses
`last_online` to the entry's preserved value, so the stored state differs. -/
theorem reconciliation_not_idempotent :
    save_state_core [['9']]
        (save_state_core [['9']] [witCamOn] [(['9', '-', '1'], c9entry)] 100)
        [(['9', '-', '1'], c9entry)] 100
      ≠ save_state_core [['9']] [witCamOn] [(['9', '-', '1'], c9entry)]
          100 := by decide

/-- C9 amended: reconciliation is idempotent on every field except
`last_online` — applying the reconciler twice with the same poll results
yields the same stored rows with every other field (including
`down_check_count` and `alert_email_count`: no double-incrementing) equal,
while a second application rewrites each processed row's `last_online` to
the poll entry's preserved value, which differs exactly on rows whose
Online-to-non-Online transition was first observed that cycle. -/
theorem reconciliation_idempotent_except_last_online
    (cfgIps : List (List Char)) (dbCams : List Cam)
    (poll : List (List Char × PollEntry)) (now : Int)
    (hcfg : ∀ ip ∈ cfgIps, '-' ∉ ip) (hdb : ∀ c ∈ dbCams, '-' ∉ c.nvr_ip)
    (hkeys : (poll.map Prod.fst).Nodup) :
    ((save_state_core cfgIps (save_state_core cfgIps dbCams poll now) poll
        now).map eraseLastOnline
      = (save_state_core cfgIps dbCams poll now).map eraseLastOnline) ∧
    (∀ (st : Option Cam) (x y : List Char) (e : PollEntry),
      reconcileCam now (some (reconcileCam now st x y e)) x y e
        = { reconcileCam now st x y e with last_online := e.last_online }) := by
  refine ⟨?_, fun st x y e => reconcile_again now st x y x y e⟩
  rw [second_pass_is_touchAgain cfgIps dbCams poll now hcfg hdb]
  rw [List.map_map]
  apply List.map_congr_left
  intro r hrD1
  show eraseLastOnline (touchAgain cfgIps poll now r) = eraseLastOnline r
  unfold touchAgain
  by_cases hcfgr : cfgIps.contains r.nvr_ip = true
  · rw [if_pos hcfgr]
    obtain ⟨kv, hkv, hkey, st, hrstruct⟩ :=
      d1_row_struct cfgIps dbCams poll now hdb r hrD1 hcfgr
    have hfindSome : ((activeEntries cfgIps poll).find?
        (fun kv2 => camKey r == kv2.1)).isSome := by
      rw [List.find?_isSome]
      exact ⟨kv, hkv, by simp [hkey]⟩
    obtain ⟨kv0, hfind0⟩ := Option.isSome_iff_exists.mp hfindSome
    have hkey0 : camKey r = kv0.1 := by simpa using List.find?_some hfind0
    have hnd : ((activeEntries cfgIps poll).map Prod.fst).Nodup := by
      apply List.Nodup.sublist ?_ hkeys
      unfold activeEntries
      exact List.Sublist.map Prod.fst (List.filter_sublist poll)
    have hkvEq : kv0 = kv := by
      apply List.inj_on_of_nodup_map hnd (List.mem_of_find?_eq_some hfind0)
        hkv
      rw [← hkey0, hkey]
    subst hkvEq
    rw [hfind0]
    show eraseLastOnline
      (reconcileCam now (some r) r.nvr_ip r.channel_id kv0.2)
      = eraseLastOnline r
    have hagain := reconcile_again now st r.nvr_ip r.channel_id r.nvr_ip
      r.channel_id kv0.2
    rw [← hrstruct] at hagain
    rw [hagain]
    rfl
  · rw [if_neg hcfgr]

/-- Witness for the amended C9 on the counterexample's own input: modulo
`last_online`, the double application equals the single one. -/
theorem reconciliation_idempotent_except_last_online_witness :
    (save_state_core [['9']]
        (save_state_core [['9']] [witCamOn] [(['9', '-', '1'], c9entry)] 100)
        [(['9', '-', '1'], c9entry)] 100).map eraseLastOnline
      = (save_state_core [['9']] [witCamOn] [(['9', '-', '1'], c9entry)]
          100).map eraseLastOnline :=
  (reconciliation_idempotent_except_last_online [['9']] [witCamOn]
    [(['9', '-', '1'], c9entry)] 100 (by decide) (by decide) (by decide)).1

/-- Recognizer for `mail_alert_triggered` events (an alert email counted
against the camera). -/
def isMailAlert : Event → Bool
  | Event.mail_alert_triggered _ _ => true
  | _ => false

/-- The claim's configuration: `first_alert_delay = 15min`,
`alert_frequency = 30min`, `mute_after_n_alerts = 3` (in seconds). -/
def c4cfg : AlertConfig :=
  { firstAlertDelay := 900, alertFrequency := 1800, muteAfterNAlerts := 3 }

/-- The `current_db_state` snapshot entry built from a stored row in the
run loop (lines 757–767 / 802–813). -/
def snapOf (c : Cam) : PollEntry :=
  { status := c.status.getD "", last_online := c.last_online,
    down_check_count := c.down_check_count, ip := c.camera_ip,
    name := c.camera_name }

/-- The camera before the downtime episode: stored Online with
`last_online = L`. -/
def simOnline (L : Int) : Cam :=
  { nvr_ip := ['9'], channel_id := ['1'], camera_ip := "a",
    camera_name := "n", status := some "Online", last_online := L,
    last_check := L, down_check_count := 0, down_alert_sent := false,
    alert_email_count := 0, is_muted := false, last_alert_time := none }

/-- Poll-and-reconcile of cycle `t` (at time `T + 60 t`) for a camera whose
NVR keeps answering but reports the channel offline. -/
def simRecon (T : Int) (t : Nat) (c : Cam) : Cam :=
  let now := T + 60 * (t : Int)
  reconcileCam now (some c) c.nvr_ip c.channel_id
    (pollChannel now (some (snapOf c)) "false" c.nvr_ip c.camera_ip
      c.camera_name).1

/-- The alert phase of one cycle on the single-camera state, with mail
delivery succeeding. -/
def simAlert (now : Int) (c : Cam) : Cam × List Event :=
  let r := check_and_send_alerts c4cfg now [c] true
  (r.1.headD c, r.2)

/-- The full cycle trace: camera goes non-Online at time `T` (cycle 0) and
stays continuously down; each cycle `t` runs at `T + 60 t`. -/
def simCycle (T L : Int) : Nat → Cam × List Event
  | 0 => simAlert (T + 60 * ((0 : Nat) : Int)) (simRecon T 0 (simOnline L))
  | t + 1 =>
    simAlert (T + 60 * ((t + 1 : Nat) : Int))
      (simRecon T (t + 1) (simCycle T L t).1)

/-- The committed camera state after cycle `t`. -/
def simCam (T L : Int) (t : Nat) : Cam := (simCycle T L t).1

/-- Whether cycle `t` sent an alert email counted against the camera. -/
def simFired (T L : Int) (t : Nat) : Bool :=
  (simCycle T L t).2.any isMailAlert

/-- Expected `alert_email_count` after cycle `t`. -/
def c4cnt (t : Nat) : Nat :=
  if t < 15 then 0 else if t < 45 then 1 else if t < 75 then 2 else 3

/-- Expected `last_alert_time` after cycle `t`. -/
def c4la (T : Int) (t : Nat) : Option Int :=
  if t < 15 then none
  else if t < 45 then some (T + 900)
  else if t < 75 then some (T + 2700)
  else some (T + 4500)

/-- Expected full camera state after cycle `t`. -/
def c4state (T : Int) (t : Nat) : Cam :=
  { nvr_ip := ['9'], channel_id := ['1'], camera_ip := "a",
    camera_name := "n", status := some "Offline", last_online := T,
    last_check := T + 60 * (t : Int), down_check_count := t + 1,
    down_alert_sent := false, alert_email_count := c4cnt t,
    is_muted := decide (105 ≤ t), last_alert_time := c4la T t }

/-- Expected events of cycle `t`. -/
def c4events (t : Nat) : List Event :=
  if t = 15 then
    [Event.mail_alert_triggered ['9', '-', '1'] 1, Event.mail_sent 1]
  else if t = 45 then
    [Event.mail_alert_triggered ['9', '-', '1'] 2, Event.mail_sent 1]
  else if t = 75 then
    [Event.mail_alert_triggered ['9', '-', '1'] 3, Event.mail_sent 1]
  else if t = 105 then
    [Event.camera_muted ['9', '-', '1'], Event.mail_sent 1]
  else []

/-- One offline poll on an already-Offline camera: counters advance,
`last_online` stays. -/
theorem simRecon_offline (T : Int) (t : Nat) (c : Cam)
    (h : c.status = some "Offline") :
    simRecon T t c = { c with
      status := some "Offline", last_check := T + 60 * (t : Int),
      down_check_count := c.down_check_count + 1,
      down_alert_sent := false } := by
  have h1 : (("false" : String) == "true") = false := by decide
  have h2 : (("Offline" : String) == "Online") = false := by decide
  simp [simRecon, pollChannel, reconcileCam, snapOf, wasOffline, h, h1, h2]

/-- The first offline poll on an Online camera: the downtime clock starts
at the reconciler's `now`. -/
theorem simRecon_first (T : Int) (t : Nat) (c : Cam)
    (h : c.status = some "Online") :
    simRecon T t c = { c with
      status := some "Offline", last_online := T + 60 * (t : Int),
      last_check := T + 60 * (t : Int),
      down_check_count := c.down_check_count + 1,
      down_alert_sent := false } := by
  have h1 : (("false" : String) == "true") = false := by decide
  simp [simRecon, pollChannel, reconcileCam, snapOf, wasOffline, h, h1]

/-- Muted cameras are skipped entirely. -/
theorem dec_muted (cfg : AlertConfig) (now : Int) (c : Cam)
    (hm : c.is_muted = true) :
    alertDecision cfg now c = (c, false, []) := by
  simp [alertDecision, hm]

/-- A non-muted camera meeting neither alert condition is left unchanged. -/
theorem dec_skip (cfg : AlertConfig) (now : Int) (c : Cam)
    (hm : c.is_muted = false)
    (hI : (c.alert_email_count == 0 &&
      decide (cfg.firstAlertDelay ≤ now - c.last_online)) = false)
    (hR : (decide (0 < c.alert_email_count) &&
      (match c.last_alert_time with
       | some t0 => decide (cfg.alertFrequency ≤ now - t0)
       | none => false)) = false) :
    alertDecision cfg now c = (c, false, []) := by
  simp only [alertDecision, hm, Bool.false_eq_true, if_false, hI, hR,
    Bool.not_false, Bool.and_self, if_true]

/-- An eligible camera below the mute threshold gets a counted alert. -/
theorem dec_fire (cfg : AlertConfig) (now : Int) (c : Cam)
    (hm : c.is_muted = false)
    (hE : (!(c.alert_email_count == 0 &&
        decide (cfg.firstAlertDelay ≤ now - c.last_online)) &&
      !(decide (0 < c.alert_email_count) &&
        (match c.last_alert_time with
         | some t0 => decide (cfg.alertFrequency ≤ now - t0)
         | none => false))) = false)
    (hc : ¬(cfg.muteAfterNAlerts ≤ c.alert_email_count)) :
    alertDecision cfg now c
      = ({ c with
            last_alert_time := some now,
            alert_email_count := c.alert_email_count + 1 },
         true,
         [Event.mail_alert_triggered (camKey c)
           (c.alert_email_count + 1)]) := by
  simp only [alertDecision, hm, Bool.false_eq_true, if_false, hE, if_neg hc]

/-- An eligible camera at or above the mute threshold is muted. -/
theorem dec_mute (cfg : AlertConfig) (now : Int) (c : Cam)
    (hm : c.is_muted = false)
    (hE : (!(c.alert_email_count == 0 &&
        decide (cfg.firstAlertDelay ≤ now - c.last_online)) &&
      !(decide (0 < c.alert_email_count) &&
        (match c.last_alert_time with
         | some t0 => decide (cfg.alertFrequency ≤ now - t0)
         | none => false))) = false)
    (hc : cfg.muteAfterNAlerts ≤ c.alert_email_count) :
    alertDecision cfg now c
      = ({ c with is_muted := true }, true,
         [Event.camera_muted (camKey c)]) := by
  simp only [alertDecision, hm, Bool.false_eq_true, if_false, hE, if_pos hc]

/-- The alert decision either leaves the camera unchanged with no events,
or flags it. -/
theorem alertDecision_cases (cfg : AlertConfig) (now : Int) (c : Cam) :
    alertDecision cfg now c = (c, false, []) ∨
    (alertDecision cfg now c).2.1 = true := by
  by_cases hm : c.is_muted = true
  · exact Or.inl (dec_muted cfg now c hm)
  · have hm' : c.is_muted = false := by simpa using hm
    by_cases hE : (!(c.alert_email_count == 0 &&
        decide (cfg.firstAlertDelay ≤ now - c.last_online)) &&
      !(decide (0 < c.alert_email_count) &&
        (match c.last_alert_time with
         | some t0 => decide (cfg.alertFrequency ≤ now - t0)
         | none => false))) = true
    · left
      simp only [alertDecision, hm', Bool.false_eq_true, if_false]
      rw [if_pos hE]
    · have hE' : (!(c.alert_email_count == 0 &&
          decide (cfg.firstAlertDelay ≤ now - c.last_online)) &&
        !(decide (0 < c.alert_email_count) &&
          (match c.last_alert_time with
           | some t0 => decide (cfg.alertFrequency ≤ now - t0)
           | none => false))) = false := Bool.eq_false_iff.mpr hE
      right
      by_cases hth : cfg.muteAfterNAlerts ≤ c.alert_email_count
      · rw [dec_mute cfg now c hm' hE' hth]
      · rw [dec_fire cfg now c hm' hE' hth]

/-- `check_and_send_alerts` on a singleton non-Online camera with mail
succeeding commits the staged decision and appends `mail_sent` exactly when
the camera was flagged. -/
theorem simAlert_offline (now : Int) (c : Cam)
    (h : c.status = some "Offline") :
    simAlert now c = ((alertDecision c4cfg now c).1,
      (alertDecision c4cfg now c).2.2 ++
        (if (alertDecision c4cfg now c).2.1 then [Event.mail_sent 1]
          else [])) := by
  have hne2 : c.status ≠ some "Online" := by rw [h]; decide
  have hp : (decide (c.status ≠ some "Online")) = true := decide_eq_true hne2
  unfold simAlert check_and_send_alerts
  simp only [List.filter_cons, List.filter_nil, hp, if_true,
    List.isEmpty_cons, Bool.false_eq_true, if_false, List.any_cons,
    List.any_nil, Bool.or_false, List.flatMap_cons, List.flatMap_nil,
    List.append_nil, List.map_cons, List.map_nil, List.length_cons,
    List.length_nil, if_pos hne2]
  rcases alertDecision_cases c4cfg now c with hcase | hcase
  · rw [hcase]
    simp
  · simp only [hcase, if_true, List.headD_cons]

/-- Generic non-alerting cycle step: when the policy neither fires nor
mutes, the whole cycle only advances the poll counters. -/
theorem step_skip (T : Int) (t : Nat)
    (h1 : c4cnt t = c4cnt (t + 1))
    (h2 : c4la T t = c4la T (t + 1))
    (h3 : decide (105 ≤ t) = decide (105 ≤ t + 1))
    (h4 : c4events (t + 1) = [])
    (hm : decide (105 ≤ t) = false)
    (hI : (c4cnt t == 0 &&
      decide ((900 : Int) ≤ T + 60 * ((t + 1 : Nat) : Int) - T)) = false)
    (hR : (decide (0 < c4cnt t) &&
      (match c4la T t with
       | some t0 => decide ((1800 : Int) ≤ T + 60 * ((t + 1 : Nat) : Int) - t0)
       | none => false)) = false) :
    simAlert (T + 60 * ((t + 1 : Nat) : Int)) (simRecon T (t + 1) (c4state T t))
      = (c4state T (t + 1), c4events (t + 1)) := by
  rw [simRecon_offline T (t + 1) (c4state T t) rfl]
  rw [simAlert_offline _ _ rfl]
  rw [dec_skip c4cfg (T + 60 * ((t + 1 : Nat) : Int))
    { c4state T t with
      status := some "Offline",
      last_check := T + 60 * ((t + 1 : Nat) : Int),
      down_check_count := (c4state T t).down_check_count + 1,
      down_alert_sent := false } hm hI hR]
  rw [h4]
  simp only [Bool.false_eq_true, if_false, List.append_nil, Prod.mk.injEq]
  refine ⟨?_, trivial⟩
  simp only [c4state, Cam.mk.injEq, true_and, and_true]
  exact ⟨h1, h3, h2⟩

/-- Generic muted cycle step: after the mute point the policy skips the
camera entirely. -/
theorem step_muted (T : Int) (t : Nat) (hge : 105 ≤ t) :
    simAlert (T + 60 * ((t + 1 : Nat) : Int)) (simRecon T (t + 1) (c4state T t))
      = (c4state T (t + 1), c4events (t + 1)) := by
  rw [simRecon_offline T (t + 1) (c4state T t) rfl]
  rw [simAlert_offline _ _ rfl]
  rw [dec_muted c4cfg (T + 60 * ((t + 1 : Nat) : Int))
    { c4state T t with
      status := some "Offline",
      last_check := T + 60 * ((t + 1 : Nat) : Int),
      down_check_count := (c4state T t).down_check_count + 1,
      down_alert_sent := false } (decide_eq_true hge)]
  have h4 : c4events (t + 1) = [] := by
    unfold c4events
    rw [if_neg (by omega), if_neg (by omega), if_neg (by omega),
      if_neg (by omega)]
  rw [h4]
  simp only [Bool.false_eq_true, if_false, List.append_nil, Prod.mk.injEq]
  refine ⟨?_, trivial⟩
  simp only [c4state, Cam.mk.injEq, true_and, and_true]
  refine ⟨?_, ?_, ?_⟩
  · unfold c4cnt
    rw [if_neg (by omega), if_neg (by omega), if_neg (by omega),
      if_neg (by omega), if_neg (by omega), if_neg (by omega)]
  · simp only [decide_eq_decide]
    constructor <;> intro <;> omega
  · unfold c4la
    rw [if_neg (by omega), if_neg (by omega), if_neg (by omega),
      if_neg (by omega), if_neg (by omega), if_neg (by omega)]

/-- Cycle 15 (T+15min): the initial alert fires. -/
theorem step15 (T : Int) :
    simAlert (T + 60 * ((15 : Nat) : Int)) (simRecon T 15 (c4state T 14))
      = (c4state T 15, c4events 15) := by
  rw [simRecon_offline T 15 (c4state T 14) rfl]
  rw [simAlert_offline _ _ rfl]
  have hd : decide ((900 : Int) ≤ T + 60 * ((15 : Nat) : Int) - T) = true :=
    decide_eq_true (by omega)
  have hE : (!(c4cnt 14 == 0 &&
      decide ((900 : Int) ≤ T + 60 * ((15 : Nat) : Int) - T)) &&
    !(decide (0 < c4cnt 14) &&
      (match c4la T 14 with
       | some t0 => decide ((1800 : Int) ≤ T + 60 * ((15 : Nat) : Int) - t0)
       | none => false))) = false := by
    rw [hd]
    rfl
  have hth : ¬((3 : Nat) ≤ c4cnt 14) := by decide
  rw [dec_fire c4cfg (T + 60 * ((15 : Nat) : Int))
    { c4state T 14 with
      status := some "Offline",
      last_check := T + 60 * ((15 : Nat) : Int),
      down_check_count := (c4state T 14).down_check_count + 1,
      down_alert_sent := false } rfl hE hth]
  simp only [Prod.mk.injEq]
  refine ⟨?_, ?_⟩
  · simp only [c4state, Cam.mk.injEq, true_and, and_true]
    refine ⟨rfl, rfl, ?_⟩
    show some (T + 60 * ((15 : Nat) : Int)) = c4la T 15
    unfold c4la
    rw [if_neg (by omega), if_pos (by omega)]
    rw [Option.some.injEq]
    omega
  · show [Event.mail_alert_triggered _ _] ++ (if True then _ else _) = _
    simp [c4events, camKey, mkKey, c4state, c4cnt]

/-- Cycle 45 (T+45min): the first recurring alert fires. -/
theorem step45 (T : Int) :
    simAlert (T + 60 * ((45 : Nat) : Int)) (simRecon T 45 (c4state T 44))
      = (c4state T 45, c4events 45) := by
  rw [simRecon_offline T 45 (c4state T 44) rfl]
  rw [simAlert_offline _ _ rfl]
  have hd : decide ((1800 : Int) ≤ T + 60 * ((45 : Nat) : Int) - (T + 900))
      = true := decide_eq_true (by omega)
  have hE : (!(c4cnt 44 == 0 &&
      decide ((900 : Int) ≤ T + 60 * ((45 : Nat) : Int) - T)) &&
    !(decide (0 < c4cnt 44) &&
      decide ((1800 : Int) ≤ T + 60 * ((45 : Nat) : Int) - (T + 900))))
      = false := by
    rw [hd]
    rfl
  have hth : ¬((3 : Nat) ≤ c4cnt 44) := by decide
  rw [dec_fire c4cfg (T + 60 * ((45 : Nat) : Int))
    { c4state T 44 with
      status := some "Offline",
      last_check := T + 60 * ((45 : Nat) : Int),
      down_check_count := (c4state T 44).down_check_count + 1,
      down_alert_sent := false } rfl hE hth]
  simp only [Prod.mk.injEq]
  refine ⟨?_, ?_⟩
  · simp only [c4state, Cam.mk.injEq, true_and, and_true]
    refine ⟨rfl, rfl, ?_⟩
    show some (T + 60 * ((45 : Nat) : Int)) = c4la T 45
    unfold c4la
    rw [if_neg (by omega), if_neg (by omega), if_pos (by omega)]
    rw [Option.some.injEq]
    omega
  · show [Event.mail_alert_triggered _ _] ++ (if True then _ else _) = _
    simp [c4events, camKey, mkKey, c4state, c4cnt]

/-- Cycle 75 (T+75min): the second recurring alert fires. -/
theorem step75 (T : Int) :
    simAlert (T + 60 * ((75 : Nat) : Int)) (simRecon T 75 (c4state T 74))
      = (c4state T 75, c4events 75) := by
  rw [simRecon_offline T 75 (c4state T 74) rfl]
  rw [simAlert_offline _ _ rfl]
  have hd : decide ((1800 : Int) ≤ T + 60 * ((75 : Nat) : Int) - (T + 2700))
      = true := decide_eq_true (by omega)
  have hE : (!(c4cnt 74 == 0 &&
      decide ((900 : Int) ≤ T + 60 * ((75 : Nat) : Int) - T)) &&
    !(decide (0 < c4cnt 74) &&
      decide ((1800 : Int) ≤ T + 60 * ((75 : Nat) : Int) - (T + 2700))))
      = false := by
    rw [hd]
    rfl
  have hth : ¬((3 : Nat) ≤ c4cnt 74) := by decide
  rw [dec_fire c4cfg (T + 60 * ((75 : Nat) : Int))
    { c4state T 74 with
      status := some "Offline",
      last_check := T + 60 * ((75 : Nat) : Int),
      down_check_count := (c4state T 74).down_check_count + 1,
      down_alert_sent := false } rfl hE hth]
  simp only [Prod.mk.injEq]
  refine ⟨?_, ?_⟩
  · simp only [c4state, Cam.mk.injEq, true_and, and_true]
    refine ⟨rfl, rfl, ?_⟩
    show some (T + 60 * ((75 : Nat) : Int)) = c4la T 75
    unfold c4la
    rw [if_neg (by omega), if_neg (by omega), if_neg (by omega)]
    rw [Option.some.injEq]
    omega
  · show [Event.mail_alert_triggered _ _] ++ (if True then _ else _) = _
    simp [c4events, camKey, mkKey, c4state, c4cnt]

/-- Cycle 105 (T+105min): the mute threshold is reached and the camera is
muted without a further counted alert. -/
theorem step105 (T : Int) :
    simAlert (T + 60 * ((105 : Nat) : Int)) (simRecon T 105 (c4state T 104))
      = (c4state T 105, c4events 105) := by
  rw [simRecon_offline T 105 (c4state T 104) rfl]
  rw [simAlert_offline _ _ rfl]
  have hd : decide ((1800 : Int) ≤ T + 60 * ((105 : Nat) : Int) - (T + 4500))
      = true := decide_eq_true (by omega)
  have hE : (!(c4cnt 104 == 0 &&
      decide ((900 : Int) ≤ T + 60 * ((105 : Nat) : Int) - T)) &&
    !(decide (0 < c4cnt 104) &&
      decide ((1800 : Int) ≤ T + 60 * ((105 : Nat) : Int) - (T + 4500))))
      = false := by
    rw [hd]
    rfl
  have hth : (3 : Nat) ≤ c4cnt 104 := by decide
  rw [dec_mute c4cfg (T + 60 * ((105 : Nat) : Int))
    { c4state T 104 with
      status := some "Offline",
      last_check := T + 60 * ((105 : Nat) : Int),
      down_check_count := (c4state T 104).down_check_count + 1,
      down_alert_sent := false } rfl hE hth]
  simp only [Prod.mk.injEq]
  refine ⟨?_, ?_⟩
  · simp only [c4state, Cam.mk.injEq, true_and, and_true]
    exact ⟨rfl, rfl, rfl⟩
  · show [Event.camera_muted _] ++ (if True then _ else _) = _
    simp [c4events, camKey, mkKey, c4state]

/-- Full characterization of the continuous-downtime trace: the state after
cycle `t` is `c4state T t` and the cycle's events are `c4events t`. -/
theorem simCycle_char (T L : Int) :
    ∀ t, simCycle T L t = (c4state T t, c4events t) := by
  intro t
  induction t with
  | zero =>
    rw [simCycle]
    rw [simRecon_first T 0 (simOnline L) rfl]
    rw [simAlert_offline _ _ rfl]
    have hI : ((0 : Nat) == 0 && decide ((900 : Int) ≤
        (T + 60 * ((0 : Nat) : Int)) - (T + 60 * ((0 : Nat) : Int))))
        = false := decide_eq_false (by omega)
    rw [dec_skip c4cfg (T + 60 * ((0 : Nat) : Int))
      { simOnline L with
        status := some "Offline",
        last_online := T + 60 * ((0 : Nat) : Int),
        last_check := T + 60 * ((0 : Nat) : Int),
        down_check_count := (simOnline L).down_check_count + 1,
        down_alert_sent := false } rfl hI rfl]
    simp only [Bool.false_eq_true, if_false, List.append_nil, Prod.mk.injEq]
    refine ⟨?_, by rfl⟩
    simp only [c4state, simOnline, c4cnt, c4la, Cam.mk.injEq, true_and,
      and_true]
    norm_num
  | succ t ih =>
    have hstep : simCycle T L (t + 1)
        = simAlert (T + 60 * ((t + 1 : Nat) : Int))
            (simRecon T (t + 1) (c4state T t)) := by
      rw [simCycle, ih]
    rw [hstep]
    by_cases ha : t + 1 < 15
    · have hcnt : c4cnt t = 0 := by
        unfold c4cnt
        rw [if_pos (by omega)]
      have hla : c4la T t = none := by
        unfold c4la
        rw [if_pos (by omega)]
      refine step_skip T t ?_ ?_ ?_ ?_ ?_ ?_ ?_
      · unfold c4cnt
        rw [if_pos (by omega), if_pos (by omega)]
      · unfold c4la
        rw [if_pos (by omega), if_pos (by omega)]
      · simp only [decide_eq_decide]
        constructor <;> intro <;> omega
      · unfold c4events
        rw [if_neg (by omega), if_neg (by omega), if_neg (by omega),
          if_neg (by omega)]
      · exact decide_eq_false (by omega)
      · rw [hcnt]
        exact decide_eq_false (by omega)
      · rw [hla]
        exact Bool.and_false _
    · by_cases hb : t + 1 = 15
      · have ht : t = 14 := by omega
        subst ht
        exact step15 T
      · by_cases hc : t + 1 < 45
        · have hcnt : c4cnt t = 1 := by
            unfold c4cnt
            rw [if_neg (by omega), if_pos (by omega)]
          have hla : c4la T t = some (T + 900) := by
            unfold c4la
            rw [if_neg (by omega), if_pos (by omega)]
          refine step_skip T t ?_ ?_ ?_ ?_ ?_ ?_ ?_
          · unfold c4cnt
            rw [if_neg (by omega), if_pos (by omega), if_neg (by omega),
              if_pos (by omega)]
          · unfold c4la
            rw [if_neg (by omega), if_pos (by omega), if_neg (by omega),
              if_pos (by omega)]
          · simp only [decide_eq_decide]
            constructor <;> intro <;> omega
          · unfold c4events
            rw [if_neg (by omega), if_neg (by omega), if_neg (by omega),
              if_neg (by omega)]
          · exact decide_eq_false (by omega)
          · rw [hcnt]
            rfl
          · rw [hcnt, hla]
            exact decide_eq_false (by omega)
        · by_cases hd : t + 1 = 45
          · have ht : t = 44 := by omega
            subst ht
            exact step45 T
          · by_cases he : t + 1 < 75
            · have hcnt : c4cnt t = 2 := by
                unfold c4cnt
                rw [if_neg (by omega), if_neg (by omega), if_pos (by omega)]
              have hla : c4la T t = some (T + 2700) := by
                unfold c4la
                rw [if_neg (by omega), if_neg (by omega), if_pos (by omega)]
              refine step_skip T t ?_ ?_ ?_ ?_ ?_ ?_ ?_
              · unfold c4cnt
                rw [if_neg (by omega), if_neg (by omega), if_pos (by omega),
                  if_neg (by omega), if_neg (by omega), if_pos (by omega)]
              · unfold c4la
                rw [if_neg (by omega), if_neg (by omega), if_pos (by omega),
                  if_neg (by omega), if_neg (by omega), if_pos (by omega)]
              · simp only [decide_eq_decide]
                constructor <;> intro <;> omega
              · unfold c4events
                rw [if_neg (by omega), if_neg (by omega), if_neg (by omega),
                  if_neg (by omega)]
              · exact decide_eq_false (by omega)
              · rw [hcnt]
                rfl
              · rw [hcnt, hla]
                exact decide_eq_false (by omega)
            · by_cases hf : t + 1 = 75
              · have ht : t = 74 := by omega
                subst ht
                exact step75 T
              · by_cases hg : t + 1 < 105
                · have hcnt : c4cnt t = 3 := by
                    unfold c4cnt
                    rw [if_neg (by omega), if_neg (by omega),
                      if_neg (by omega)]
                  have hla : c4la T t = some (T + 4500) := by
                    unfold c4la
                    rw [if_neg (by omega), if_neg (by omega),
                      if_neg (by omega)]
                  refine step_skip T t ?_ ?_ ?_ ?_ ?_ ?_ ?_
                  · unfold c4cnt
                    rw [if_neg (by omega), if_neg (by omega),
                      if_neg (by omega), if_neg (by omega),
                      if_neg (by omega), if_neg (by omega)]
                  · unfold c4la
                    rw [if_neg (by omega), if_neg (by omega),
                      if_neg (by omega), if_neg (by omega),
                      if_neg (by omega), if_neg (by omega)]
                  · simp only [decide_eq_decide]
                    constructor <;> intro <;> omega
                  · unfold c4events
                    rw [if_neg (by omega), if_neg (by omega),
                      if_neg (by omega), if_neg (by omega)]
                  · exact decide_eq_false (by omega)
                  · rw [hcnt]
                    rfl
                  · rw [hcnt, hla]
                    exact decide_eq_false (by omega)
                · by_cases hh : t + 1 = 105
                  · have ht : t = 104 := by omega
                    subst ht
                    exact step105 T
                  · exact step_muted T t (by omega)

/-- C4: a camera going non-Online at time `T` and staying continuously down
(with `first_alert_delay = 15min`, `alert_frequency = 30min`,
`mute_after_n_alerts = 3`, 60-second cycles, mail delivery succeeding)
receives a counted alert email exactly at cycles 15, 45 and 75 (minutes
after `T`) — in particular none before `T+15min` and exactly one at the
first cycle at or after it — is muted from cycle 105 on and never before,
and its `alert_email_count` never exceeds 3: no 4th alert email is ever
counted against it while it stays down. -/
theorem alerts_at_15_45_75_then_muted (T L : Int) (t : Nat) :
    (simFired T L t = true ↔ (t = 15 ∨ t = 45 ∨ t = 75)) ∧
    ((simCam T L t).is_muted = true ↔ 105 ≤ t) ∧
    (simCam T L t).alert_email_count ≤ 3 := by
  have h := simCycle_char T L t
  unfold simFired simCam
  rw [h]
  refine ⟨?_, ?_, ?_⟩
  · show (c4events t).any isMailAlert = true ↔ _
    unfold c4events
    split_ifs with e1 e2 e3 e4 <;> simp [isMailAlert] <;> omega
  · show (c4state T t).is_muted = true ↔ _
    simp only [c4state]
    simp
  · show (c4state T t).alert_email_count ≤ 3
    simp only [c4state]
    unfold c4cnt
    split_ifs <;> omega
